import Mathlib

/-!
Shallow embedding of the tty (virtual console) subsystem implemented in
src/src/tty/tty.c.

The repository does not ship tty.h, so the geometry constants, the empty-cell
sentinel and the two helper macros (HISTORY_POS, GET_TAB_SIZE) are modelled
from the spec; everything else is translated from tty.c.

Conventions of the embedding:
* vgapos_t is a signed machine integer; the spec calls the cursor fields
  signed integers, so they are modelled as unbounded Int.
* The history buffer and the memory-mapped VGA buffer are total functions
  from a cell index (Nat) to a 16-bit cell value; indices at or past the
  array length correspond to out-of-bounds accesses of the C program.
* size_t arithmetic in the eviction branch is 32-bit (the repository targets
  i386, cf. the syscall assembly), hence the explicit mod 2^32 there.
* In tty_fix_pos the C operands of % and / are non-negative in the branches
  where they occur, so C truncating division agrees with the Nat operations
  used here.
-/

/-- Modelled from the spec: viewport width in columns (tty.h is missing). -/
def VGA_WIDTH : Nat := 80

/-- Modelled from the spec: viewport height in rows (tty.h is missing). -/
def VGA_HEIGHT : Nat := 25

/-- Modelled from the spec: total number of history lines (tty.h is missing). -/
def HISTORY_LINES : Nat := 200

/-- Modelled from the spec: default color attribute, light grey on black
(tty.h is missing; no claim depends on the concrete value). -/
def VGA_DEFAULT_COLOR : Nat := 7

/-- Modelled from the spec: the empty-cell sentinel, a blank glyph with the
default color (tty.h is missing; no claim depends on the concrete value). -/
def EMPTY_CHAR : Nat := VGA_DEFAULT_COLOR * 256 + 32

/-- The escape marker byte handed off to the escape-sequence handler. -/
def ANSI_ESCAPE : Nat := 27

/-- Modelled from the spec: fixed tab width of 8 columns. -/
def TAB_SIZE : Nat := 8

/-- Modulus of 32-bit size_t arithmetic (i386 target). -/
def SIZE_T_MOD : Nat := 4294967296

/-- One virtual console (struct tty_t), with the memory-mapped VGA text
buffer and hardware cursor bundled in so that rendering effects are
observable. vga is VGA_BUFFER, hw_cursor tracks vga_move_cursor. -/
structure tty_t where
  cursor_x : Int
  cursor_y : Int
  screen_y : Int
  history : Nat → Nat
  current_color : Nat
  prompted_chars : Nat
  freeze : Bool
  vga : Nat → Nat
  hw_cursor_x : Int
  hw_cursor_y : Int

/-- Bitwise complement within 8 bits, for the uint8 masks of the color
setters: ~m truncated to the width of vgacolor_t. -/
def compl8 (m : Nat) : Nat := 255 ^^^ (m % 256)

/-- tty.c lines 25-30 (tty_set_fgcolor). The mask ~((vgacolor_t) 0xff)
truncated to 8 bits is 0x00: it clears the whole attribute byte, not just
the foreground nibble, before or-ing in the new foreground. -/
def tty_set_fgcolor (tty : tty_t) (color : Nat) : tty_t :=
  { tty with current_color :=
      ((tty.current_color &&& compl8 0xff) ||| (color % 256)) % 256 }

/-- tty.c lines 32-37 (tty_set_bgcolor). (vgacolor_t) (0xff << 4) truncates
to 0xf0, so the mask ~0xf0 keeps the foreground nibble; the new background
is shifted into bits 4-7 (the store truncates to 8 bits). -/
def tty_set_bgcolor (tty : tty_t) (color : Nat) : tty_t :=
  { tty with current_color :=
      ((tty.current_color &&& compl8 (0xff <<< 4)) ||| ((color % 256) <<< 4)) % 256 }

/-- tty.c lines 39-45 (tty_clear_portion): set size cells starting at cell
index start to the empty sentinel. The C version receives a pointer; the
embedding passes the base offset explicitly. -/
def tty_clear_portion (h : Nat → Nat) (start size : Nat) : Nat → Nat :=
  fun i => if start ≤ i ∧ i < start + size then EMPTY_CHAR else h i

/-- tty.c lines 47-58 (update_tty): copy the viewport slice of history into
the VGA buffer and move the hardware cursor. The else branch is the
defensive partial copy; its size operand is size_t, so a screen_y above
HISTORY_LINES would wrap in C (undefined territory the claims never reach),
modelled here with toNat clamping. -/
def update_tty (tty : tty_t) : tty_t :=
  let copied : Nat :=
    if tty.screen_y + (VGA_HEIGHT : Int) ≤ (HISTORY_LINES : Int) then
      VGA_WIDTH * VGA_HEIGHT
    else
      (((HISTORY_LINES : Int) - tty.screen_y) * (VGA_WIDTH : Int)).toNat
  { tty with
    vga := fun i =>
      if i < copied then tty.history (((VGA_WIDTH : Int) * tty.screen_y + (i : Int)).toNat)
      else tty.vga i,
    hw_cursor_x := tty.cursor_x,
    hw_cursor_y := tty.cursor_y }

/-- tty.c lines 60-69 (tty_clear): reset the cursor and screen offset to the
origin, blank the whole history (sizeof(history)/sizeof(uint16_t) cells)
and redraw. -/
def tty_clear (tty : tty_t) : tty_t :=
  update_tty
    { tty with
      cursor_x := 0,
      cursor_y := 0,
      screen_y := 0,
      history := tty_clear_portion tty.history 0 (VGA_WIDTH * HISTORY_LINES) }

/-- tty.c lines 74-79: horizontal underflow step of tty_fix_pos. p = -cursor_x
is positive here, so the C % and / agree with the Nat operations. -/
def tty_fix_pos_xneg (tty : tty_t) : tty_t :=
  if tty.cursor_x < 0 then
    let p : Nat := (-tty.cursor_x).toNat
    { tty with
      cursor_x := (VGA_WIDTH : Int) - ((p % VGA_WIDTH : Nat) : Int),
      cursor_y := tty.cursor_y + ((p / VGA_WIDTH : Nat) : Int) - 1 }
  else tty

/-- tty.c lines 81-86: horizontal overflow step of tty_fix_pos. p = cursor_x
is non-negative here. -/
def tty_fix_pos_xover (tty : tty_t) : tty_t :=
  if tty.cursor_x ≥ (VGA_WIDTH : Int) then
    let p : Nat := tty.cursor_x.toNat
    { tty with
      cursor_x := ((p % VGA_WIDTH : Nat) : Int),
      cursor_y := tty.cursor_y + ((p / VGA_WIDTH : Nat) : Int) }
  else tty

/-- tty.c lines 88-92: vertical underflow step of tty_fix_pos. -/
def tty_fix_pos_yneg (tty : tty_t) : tty_t :=
  if tty.cursor_y < 0 then
    { tty with
      screen_y := tty.screen_y - ((tty.cursor_y - (VGA_HEIGHT : Int)) + 1),
      cursor_y := 0 }
  else tty

/-- tty.c lines 94-98: vertical overflow step of tty_fix_pos. -/
def tty_fix_pos_yover (tty : tty_t) : tty_t :=
  if tty.cursor_y ≥ (VGA_HEIGHT : Int) then
    { tty with
      screen_y := tty.screen_y + ((tty.cursor_y - (VGA_HEIGHT : Int)) + 1),
      cursor_y := (VGA_HEIGHT : Int) - 1 }
  else tty

/-- tty.c lines 100-101: clamp a negative screen_y to 0. -/
def tty_fix_pos_screen_clamp (tty : tty_t) : tty_t :=
  if tty.screen_y < 0 then { tty with screen_y := 0 } else tty

/-- tty.c lines 103-113: the eviction step of tty_fix_pos, translated with
the C-level integer behavior kept intact:
* diff (cells) = VGA_WIDTH * (HISTORY_LINES - (screen_y + VGA_HEIGHT) + 1),
  computed in size_t, so a negative value wraps mod 2^32;
* size (bytes) = sizeof(history) - diff * sizeof(uint16_t), again size_t;
* the memmove source is history + diff * sizeof(uint16_t), which is pointer
  arithmetic on uint16_t and therefore advances 2 * diff CELLS (byte offset
  4 * diff, wrapping mod 2^32 on i386), i.e. double the intended offset;
  the copy reads diff cells past the end of the array in C;
* the trailing diff cells starting at cell size/2 are blanked;
* screen_y is pinned to HISTORY_LINES - VGA_HEIGHT. -/
def tty_fix_pos_evict (tty : tty_t) : tty_t :=
  if tty.screen_y + (VGA_HEIGHT : Int) ≥ (HISTORY_LINES : Int) then
    let diff : Nat :=
      (((VGA_WIDTH : Int) *
        ((HISTORY_LINES : Int) - (tty.screen_y + (VGA_HEIGHT : Int)) + 1)).emod
          (SIZE_T_MOD : Int)).toNat
    let size : Nat :=
      (((VGA_WIDTH * HISTORY_LINES * 2 : Nat) - 2 * (diff : Int)).emod
          (SIZE_T_MOD : Int)).toNat
    let srcOff : Nat := (4 * diff % SIZE_T_MOD) / 2
    let moved : Nat → Nat :=
      fun i => if i < size / 2 then tty.history (srcOff + i) else tty.history i
    { tty with
      history := tty_clear_portion moved (size / 2) diff,
      screen_y := (HISTORY_LINES : Int) - (VGA_HEIGHT : Int) }
  else tty

/-- tty.c lines 71-114 (tty_fix_pos): the six normalization steps in source
order. -/
def tty_fix_pos (tty : tty_t) : tty_t :=
  tty_fix_pos_evict
    (tty_fix_pos_screen_clamp
      (tty_fix_pos_yover
        (tty_fix_pos_yneg
          (tty_fix_pos_xover
            (tty_fix_pos_xneg tty)))))

/-- tty.c lines 116-123 (tty_cursor_forward). -/
def tty_cursor_forward (tty : tty_t) (x y : Nat) : tty_t :=
  tty_fix_pos { tty with cursor_x := tty.cursor_x + x, cursor_y := tty.cursor_y + y }

/-- tty.c lines 125-132 (tty_cursor_backward). -/
def tty_cursor_backward (tty : tty_t) (x y : Nat) : tty_t :=
  tty_fix_pos { tty with cursor_x := tty.cursor_x - x, cursor_y := tty.cursor_y - y }

/-- tty.c lines 134-141 (tty_newline). -/
def tty_newline (tty : tty_t) : tty_t :=
  tty_fix_pos { tty with cursor_x := 0, cursor_y := tty.cursor_y + 1 }

/-- Modelled from the spec: GET_TAB_SIZE gives the distance from cursor_x to
the next tab stop for a fixed tab width of 8 columns (at column 75 this is
5, matching the concrete scenario of the spec). tty.h is missing. -/
def GET_TAB_SIZE (x : Int) : Nat := TAB_SIZE - x.toNat % TAB_SIZE

/-- Modelled from the spec: HISTORY_POS addresses the history cell of
viewport position (x, y) when the viewport top is history row s, in the
row-major layout used by update_tty. tty.h is missing. -/
def HISTORY_POS (s x y : Int) : Nat := ((s + y) * (VGA_WIDTH : Int) + x).toNat

/-- The 16-bit cell value stored for byte c with attribute color:
(uint16_t) c | ((uint16_t) color << 8). char is signed on i386, so bytes at
or above 128 sign-extend into the high byte before the or. -/
def vga_cell (c color : Nat) : Nat :=
  (if c % 256 < 128 then c % 256 else 0xFF00 ||| (c % 256)) ||| ((color % 256) <<< 8)

/-- tty.c lines 143-184 (tty_putchar). The backspace case only calls the
external tone generator, which has no console state effect. Every case is
followed by the unconditional tty_fix_pos of line 182 and, when requested,
a redraw. -/
def tty_putchar (c : Nat) (tty : tty_t) (update : Bool) : tty_t :=
  let b := c % 256
  let t :=
    if b = 8 then tty
    else if b = 9 then tty_cursor_forward tty (GET_TAB_SIZE tty.cursor_x) 0
    else if b = 10 then tty_newline tty
    else if b = 13 then { tty with cursor_x := 0 }
    else
      tty_cursor_forward
        { tty with
          history := fun i =>
            if i = HISTORY_POS tty.screen_y tty.cursor_x tty.cursor_y then
              vga_cell b tty.current_color
            else tty.history i } 1 0
  let t := tty_fix_pos t
  if update then update_tty t else t

/-- tty.c lines 192-204: the body of tty_erase after its guard and clamp,
for an already clamped count: move the cursor back, blank count cells
starting at the new cursor position, redraw unless frozen, and decrement
prompted_chars. -/
def tty_erase_core (tty : tty_t) (count : Nat) : tty_t :=
  let t1 := tty_cursor_backward tty count 0
  let b : Nat := HISTORY_POS t1.screen_y t1.cursor_x t1.cursor_y
  let t2 := { t1 with
    history := fun i => if b ≤ i ∧ i < b + count then EMPTY_CHAR else t1.history i }
  let t3 := if !t2.freeze then update_tty t2 else t2
  { t3 with prompted_chars := t3.prompted_chars - count }

/-- tty.c lines 186-205 (tty_erase): no-op when nothing was prompted, clamp
count to prompted_chars, then run the erase body. -/
def tty_erase (tty : tty_t) (count : Nat) : tty_t :=
  if tty.prompted_chars = 0 then tty
  else tty_erase_core tty (if count > tty.prompted_chars then tty.prompted_chars else count)

/-- The external escape-sequence handler ansi_handle(tty, buffer, &i, count):
given the console, the byte buffer, the current index and the count, it
returns the mutated console and the new index (it advances past its own
sequence). The core only hands off to it, so it is a parameter of the
embedding. -/
def AnsiHandler : Type := tty_t → (Nat → Nat) → Nat → Nat → tty_t × Nat

/-- The loop of tty_write (lines 212-220): per byte, either tty_putchar
without redraw or the escape handler, then an unconditional update_tty.
The fuel argument bounds the number of iterations; count iterations suffice
whenever the handler advances the index as its contract requires. -/
def tty_write_loop (ansi : AnsiHandler) (buffer : Nat → Nat) (count : Nat) :
    Nat → Nat → tty_t → tty_t
  | 0, _, tty => tty
  | fuel + 1, i, tty =>
    if i < count then
      if buffer i % 256 ≠ ANSI_ESCAPE then
        tty_write_loop ansi buffer count fuel (i + 1)
          (update_tty (tty_putchar (buffer i) tty false))
      else
        let r := ansi tty buffer i count
        tty_write_loop ansi buffer count fuel (r.2 + 1) (update_tty r.1)
    else tty

/-- tty.c lines 207-221 (tty_write). Null pointers are modelled as none;
the guard of line 210 returns with nothing changed. -/
def tty_write (ansi : AnsiHandler) (buffer : Option (Nat → Nat)) (count : Nat)
    (tty : Option tty_t) : Option tty_t :=
  match buffer, tty with
  | some b, some t =>
    if count = 0 then some t else some (tty_write_loop ansi b count count 0 t)
  | _, _ => tty

/-- tty.c lines 268-273 (tty_ctrl_hook): the body is only (void) code — it
performs no state change and no rendering. -/
def tty_ctrl_hook (code : Nat) (tty : tty_t) : tty_t := tty

/-- The cursor and screen invariants of the spec, for one console. -/
def TtyInv (tty : tty_t) : Prop :=
  0 ≤ tty.cursor_x ∧ tty.cursor_x < (VGA_WIDTH : Int) ∧
  0 ≤ tty.cursor_y ∧ tty.cursor_y < (VGA_HEIGHT : Int) ∧
  0 ≤ tty.screen_y ∧ tty.screen_y + (VGA_HEIGHT : Int) ≤ (HISTORY_LINES : Int)

instance (tty : tty_t) : Decidable (TtyInv tty) := by
  unfold TtyInv
  infer_instance

/-- One public operation of the cursor/write interface, for stating
properties about arbitrary operation sequences. -/
inductive TtyOp where
  | forward (x y : Nat)
  | backward (x y : Nat)
  | putc (c : Nat) (update : Bool)
  | newline
deriving DecidableEq

/-- Apply one operation to a console. -/
def tty_apply_op (op : TtyOp) (tty : tty_t) : tty_t :=
  match op with
  | .forward x y => tty_cursor_forward tty x y
  | .backward x y => tty_cursor_backward tty x y
  | .putc c u => tty_putchar c tty u
  | .newline => tty_newline tty

/-- Apply a sequence of operations, left to right. -/
def tty_apply_ops (ops : List TtyOp) (tty : tty_t) : tty_t :=
  ops.foldl (fun t op => tty_apply_op op t) tty

/-- A concrete console in its post-clear state, used by concrete instances. -/
def tty0 : tty_t :=
  { cursor_x := 0, cursor_y := 0, screen_y := 0,
    history := fun _ => EMPTY_CHAR,
    current_color := VGA_DEFAULT_COLOR, prompted_chars := 0, freeze := false,
    vga := fun _ => 0, hw_cursor_x := 0, hw_cursor_y := 0 }

/-- The linear history cell index of the cursor after moving back count
columns from console t: the base of the cell range blanked by tty_erase. -/
def tty_erase_begin (t : tty_t) (count : Nat) : Nat :=
  HISTORY_POS (tty_cursor_backward t count 0).screen_y
    (tty_cursor_backward t count 0).cursor_x
    (tty_cursor_backward t count 0).cursor_y

/-- A trivial escape handler that consumes nothing beyond the marker byte,
to instantiate concrete runs of tty_write. -/
def ansi_skip : AnsiHandler := fun t _ i _ => (t, i)

/-- A console pinned at the bottom of its history (screen_y =
HISTORY_LINES - VGA_HEIGHT) with pairwise distinct cell values, so eviction
shifts are observable. -/
def evict_ex : tty_t := { tty0 with screen_y := 175, history := fun i => i }

/-- A normalized console at the scroll boundary, for the idempotence
analysis; its cell values are pairwise distinct. -/
def idem_ex : tty_t := { tty0 with screen_y := 175, history := fun i => i }

/-- A normalized console with the cursor at column 0 of row 1. -/
def wrap_ex : tty_t := { tty0 with cursor_y := 1 }

/-- A console whose attribute byte is 0x70: background nibble 7, foreground
nibble 0. -/
def fg_ex : tty_t := { tty0 with current_color := 112 }

/-- A frozen console whose VGA buffer holds a sentinel value, so any redraw
is observable. -/
def frozen_ex : tty_t := { tty0 with freeze := true, vga := fun _ => 999 }

/-- A console with two characters prompted on the input line. -/
def erase_ex : tty_t := { tty0 with cursor_x := 5, prompted_chars := 2 }

/-! Invariant lemmas about the normalization steps. -/

lemma fix_x_bounds (t : tty_t) :
    0 ≤ (tty_fix_pos_xover (tty_fix_pos_xneg t)).cursor_x ∧
    (tty_fix_pos_xover (tty_fix_pos_xneg t)).cursor_x < (VGA_WIDTH : Int) := by
  unfold tty_fix_pos_xneg tty_fix_pos_xover VGA_WIDTH
  split_ifs <;> simp_all <;> omega

lemma yneg_cursor_x (t : tty_t) : (tty_fix_pos_yneg t).cursor_x = t.cursor_x := by
  unfold tty_fix_pos_yneg
  split <;> rfl

lemma yover_cursor_x (t : tty_t) : (tty_fix_pos_yover t).cursor_x = t.cursor_x := by
  unfold tty_fix_pos_yover
  split <;> rfl

lemma clamp_cursor_x (t : tty_t) : (tty_fix_pos_screen_clamp t).cursor_x = t.cursor_x := by
  unfold tty_fix_pos_screen_clamp
  split <;> rfl

lemma evict_cursor_x (t : tty_t) : (tty_fix_pos_evict t).cursor_x = t.cursor_x := by
  unfold tty_fix_pos_evict
  split <;> rfl

lemma clamp_cursor_y (t : tty_t) : (tty_fix_pos_screen_clamp t).cursor_y = t.cursor_y := by
  unfold tty_fix_pos_screen_clamp
  split <;> rfl

lemma evict_cursor_y (t : tty_t) : (tty_fix_pos_evict t).cursor_y = t.cursor_y := by
  unfold tty_fix_pos_evict
  split <;> rfl

lemma fix_y_bounds (t : tty_t) :
    0 ≤ (tty_fix_pos_yover (tty_fix_pos_yneg t)).cursor_y ∧
    (tty_fix_pos_yover (tty_fix_pos_yneg t)).cursor_y < (VGA_HEIGHT : Int) := by
  unfold tty_fix_pos_yneg tty_fix_pos_yover VGA_HEIGHT
  split_ifs <;> simp_all <;> omega

lemma fix_s_bounds (t : tty_t) :
    0 ≤ (tty_fix_pos_evict (tty_fix_pos_screen_clamp t)).screen_y ∧
    (tty_fix_pos_evict (tty_fix_pos_screen_clamp t)).screen_y + (VGA_HEIGHT : Int) ≤
      (HISTORY_LINES : Int) := by
  unfold tty_fix_pos_screen_clamp tty_fix_pos_evict VGA_HEIGHT HISTORY_LINES
  split_ifs <;> simp_all <;> omega

lemma tty_fix_pos_inv (t : tty_t) : TtyInv (tty_fix_pos t) := by
  obtain ⟨hx0, hx1⟩ := fix_x_bounds t
  obtain ⟨hy0, hy1⟩ := fix_y_bounds (tty_fix_pos_xover (tty_fix_pos_xneg t))
  obtain ⟨hs0, hs1⟩ :=
    fix_s_bounds (tty_fix_pos_yover (tty_fix_pos_yneg (tty_fix_pos_xover (tty_fix_pos_xneg t))))
  unfold TtyInv tty_fix_pos
  rw [evict_cursor_x, clamp_cursor_x, yover_cursor_x, yneg_cursor_x,
    evict_cursor_y, clamp_cursor_y]
  exact ⟨hx0, hx1, hy0, hy1, hs0, hs1⟩

lemma TtyInv_update_tty (t : tty_t) : TtyInv (update_tty t) ↔ TtyInv t := Iff.rfl

lemma tty_apply_op_inv (op : TtyOp) (t : tty_t) : TtyInv (tty_apply_op op t) := by
  cases op with
  | forward x y => exact tty_fix_pos_inv _
  | backward x y => exact tty_fix_pos_inv _
  | newline => exact tty_fix_pos_inv _
  | putc c u =>
    unfold tty_apply_op tty_putchar
    cases u with
    | false => exact tty_fix_pos_inv _
    | true => exact (TtyInv_update_tty _).mpr (tty_fix_pos_inv _)

/-- C1: for every console and every sequence of relative cursor moves
(tty_cursor_forward / tty_cursor_backward with arbitrary deltas), glyph
writes, and newlines, after normalization (tty_fix_pos) returns, the
invariants 0 ≤ cursor_x < viewport_width, 0 ≤ cursor_y < viewport_height,
0 ≤ screen_y and screen_y + viewport_height ≤ history_line_count all
hold. -/
theorem c1_invariant_preservation (tty : tty_t) (ops : List TtyOp) (h : ops ≠ []) :
    TtyInv (tty_apply_ops ops tty) := by
  induction ops generalizing tty with
  | nil => exact absurd rfl h
  | cons op rest ih =>
    cases rest with
    | nil =>
      simpa [tty_apply_ops] using tty_apply_op_inv op tty
    | cons op2 rest2 =>
      have : tty_apply_ops (op :: op2 :: rest2) tty =
          tty_apply_ops (op2 :: rest2) (tty_apply_op op tty) := by
        simp [tty_apply_ops]
      rw [this]
      exact ih (tty_apply_op op tty) (by simp)

/-- Witness for C1 at a concrete nonempty operation sequence. -/
theorem c1_invariant_preservation_witness :
    ([TtyOp.newline] ≠ ([] : List TtyOp)) ∧ TtyInv (tty_apply_ops [TtyOp.newline] tty0) :=
  ⟨by decide, c1_invariant_preservation tty0 [TtyOp.newline] (by decide)⟩

/-! Helper lemmas shared by several claims. -/

lemma xneg_prompted (t : tty_t) : (tty_fix_pos_xneg t).prompted_chars = t.prompted_chars := by
  unfold tty_fix_pos_xneg
  split <;> rfl

lemma xover_prompted (t : tty_t) : (tty_fix_pos_xover t).prompted_chars = t.prompted_chars := by
  unfold tty_fix_pos_xover
  split <;> rfl

lemma yneg_prompted (t : tty_t) : (tty_fix_pos_yneg t).prompted_chars = t.prompted_chars := by
  unfold tty_fix_pos_yneg
  split <;> rfl

lemma yover_prompted (t : tty_t) : (tty_fix_pos_yover t).prompted_chars = t.prompted_chars := by
  unfold tty_fix_pos_yover
  split <;> rfl

lemma clamp_prompted (t : tty_t) :
    (tty_fix_pos_screen_clamp t).prompted_chars = t.prompted_chars := by
  unfold tty_fix_pos_screen_clamp
  split <;> rfl

lemma evict_prompted (t : tty_t) : (tty_fix_pos_evict t).prompted_chars = t.prompted_chars := by
  unfold tty_fix_pos_evict
  split <;> rfl

lemma tty_fix_pos_prompted (t : tty_t) :
    (tty_fix_pos t).prompted_chars = t.prompted_chars := by
  unfold tty_fix_pos
  rw [evict_prompted, clamp_prompted, yover_prompted, yneg_prompted, xover_prompted,
    xneg_prompted]

lemma tty_cursor_backward_prompted (t : tty_t) (x y : Nat) :
    (tty_cursor_backward t x y).prompted_chars = t.prompted_chars := by
  unfold tty_cursor_backward
  rw [tty_fix_pos_prompted]

lemma tty_erase_core_prompted (t : tty_t) (count : Nat) :
    (tty_erase_core t count).prompted_chars =
      (tty_cursor_backward t count 0).prompted_chars - count := by
  simp only [tty_erase_core]
  set m := tty_cursor_backward t count 0 with hm
  split <;> rfl

lemma tty_erase_core_history (t : tty_t) (count : Nat) :
    (tty_erase_core t count).history = fun i =>
      if tty_erase_begin t count ≤ i ∧ i < tty_erase_begin t count + count then EMPTY_CHAR
      else (tty_cursor_backward t count 0).history i := by
  simp only [tty_erase_core, tty_erase_begin]
  set m := tty_cursor_backward t count 0 with hm
  split <;> rfl

lemma update_tty_history (t : tty_t) : (update_tty t).history = t.history := rfl

lemma update_tty_prompted (t : tty_t) :
    (update_tty t).prompted_chars = t.prompted_chars := rfl

lemma update_tty_idem_vga (t : tty_t) :
    (update_tty (update_tty t)).vga = (update_tty t).vga := by
  funext i
  simp only [update_tty]
  split_ifs <;> rfl

lemma tty_write_loop_exit (ansi : AnsiHandler) (b : Nat → Nat) (count fuel i : Nat)
    (t : tty_t) (h : ¬ i < count) : tty_write_loop ansi b count fuel i t = t := by
  cases fuel <;> simp [tty_write_loop, h]

lemma tty_write_loop_renders (ansi : AnsiHandler) (b : Nat → Nat) (count : Nat) :
    ∀ fuel i t, i < count → 0 < fuel →
      ∃ u, tty_write_loop ansi b count fuel i t = update_tty u := by
  intro fuel
  induction fuel with
  | zero => intro i t _ h0; exact absurd h0 (by omega)
  | succ n ih =>
    intro i t hi _
    by_cases hb : b i % 256 ≠ ANSI_ESCAPE
    · have step : tty_write_loop ansi b count (n + 1) i t =
          tty_write_loop ansi b count n (i + 1)
            (update_tty (tty_putchar (b i) t false)) := by
        simp [tty_write_loop, hi, hb]
      rw [step]
      rcases Nat.eq_zero_or_pos n with hn | hn
      · subst hn; exact ⟨_, rfl⟩
      · by_cases h3 : i + 1 < count
        · exact ih (i + 1) _ h3 hn
        · rw [tty_write_loop_exit _ _ _ _ _ _ h3]; exact ⟨_, rfl⟩
    · have step : tty_write_loop ansi b count (n + 1) i t =
          tty_write_loop ansi b count n ((ansi t b i count).2 + 1)
            (update_tty (ansi t b i count).1) := by
        simp [tty_write_loop, hi, hb]
      rw [step]
      rcases Nat.eq_zero_or_pos n with hn | hn
      · subst hn; exact ⟨_, rfl⟩
      · by_cases h3 : (ansi t b i count).2 + 1 < count
        · exact ih _ _ h3 hn
        · rw [tty_write_loop_exit _ _ _ _ _ _ h3]; exact ⟨_, rfl⟩

/-- C2: the claim says eviction discards exactly the topmost rows needed for
the viewport to fit, shifting history up by that many rows. Evaluated at a
console already pinned at the bottom (screen_y = 175, viewport exactly
fits, zero rows need discarding): the eviction branch still fires and cell 0
afterwards holds the old cell 160, i.e. the content was shifted up by two
whole rows (the memmove source is offset diff cells times sizeof(uint16_t)
on a uint16_t pointer), while the last row is blanked. -/
theorem c2_eviction_shift_eval :
    evict_ex.screen_y = 175 ∧
    (tty_fix_pos evict_ex).screen_y = 175 ∧
    evict_ex.history 0 = 0 ∧
    evict_ex.history 80 = 80 ∧
    (tty_fix_pos evict_ex).history 0 = 160 ∧
    (tty_fix_pos evict_ex).history 15999 = EMPTY_CHAR := by
  decide

/-- C3: the claim says moving the cursor backward by exactly
viewport_width columns from (0, y) yields (0, y - 1). Evaluated at a
normalized console with the cursor at (0, 1): the code yields (0, 2), one
row below the starting row, because the horizontal-underflow step adds
p / width - 1 = 0 to cursor_y and the subsequent overflow step adds 1. -/
theorem c3_backward_wrap_eval :
    TtyInv wrap_ex ∧
    wrap_ex.cursor_x = 0 ∧
    wrap_ex.cursor_y = 1 ∧
    (tty_cursor_backward wrap_ex 80 0).cursor_x = 0 ∧
    (tty_cursor_backward wrap_ex 80 0).cursor_y = 2 := by
  decide

/-- C4: the claim says tty_fix_pos is the identity on any state satisfying
the invariants, including the boundary screen_y + height = history_lines.
Evaluated at such a boundary state: the cursor and screen_y are unchanged
but the history contents are shifted (cell 0 becomes old cell 160), and a
second run shifts again (cell 0 becomes old cell 320), so running twice
differs from running once. -/
theorem c4_idempotence_eval :
    TtyInv idem_ex ∧
    (tty_fix_pos idem_ex).cursor_x = idem_ex.cursor_x ∧
    (tty_fix_pos idem_ex).cursor_y = idem_ex.cursor_y ∧
    (tty_fix_pos idem_ex).screen_y = idem_ex.screen_y ∧
    (tty_fix_pos idem_ex).history 0 ≠ idem_ex.history 0 ∧
    (tty_fix_pos (tty_fix_pos idem_ex)).history 0 ≠ (tty_fix_pos idem_ex).history 0 := by
  decide

/-- C7: the claim says tty_set_fgcolor changes only the foreground nibble.
Evaluated at a console with attribute 0x70 (background nibble 7): setting
the foreground to 2 yields 0x02 — the background nibble is cleared, because
the mask ~((vgacolor_t) 0xff) clears the whole byte. The claimed result
would be 0x72. -/
theorem c7_set_fgcolor_eval :
    fg_ex.current_color = 112 ∧
    fg_ex.current_color / 16 = 7 ∧
    (tty_set_fgcolor fg_ex 2).current_color = 2 ∧
    (tty_set_fgcolor fg_ex 2).current_color / 16 = 0 := by
  decide

/-- C9: tty_clear resets cursor_x, cursor_y and screen_y to 0, blanks every
history cell to the empty sentinel, and leaves current_color,
prompted_chars and the freeze flag unchanged. -/
theorem c9_clear_frame (t : tty_t) :
    (tty_clear t).cursor_x = 0 ∧
    (tty_clear t).cursor_y = 0 ∧
    (tty_clear t).screen_y = 0 ∧
    (∀ i, (tty_clear t).history i =
      if i < VGA_WIDTH * HISTORY_LINES then EMPTY_CHAR else t.history i) ∧
    (tty_clear t).current_color = t.current_color ∧
    (tty_clear t).prompted_chars = t.prompted_chars ∧
    (tty_clear t).freeze = t.freeze := by
  refine ⟨rfl, rfl, rfl, ?_, rfl, rfl, rfl⟩
  intro i
  unfold tty_clear update_tty tty_clear_portion
  simp

/-- C10: for every key code, tty_ctrl_hook changes no console state and
produces no rendering or side effect. -/
theorem c10_ctrl_hook_noop (code : Nat) (tty : tty_t) : tty_ctrl_hook code tty = tty := rfl

/-- C6: erase with prompted_chars = 0 is a complete no-op, and erase with a
count larger than prompted_chars = k blanks exactly the k cells starting at
the post-move cursor position (all other cells of the post-move state are
untouched) and leaves prompted_chars = 0. -/
theorem c6_erase_boundary (t : tty_t) (N : Nat) :
    (t.prompted_chars = 0 → tty_erase t N = t) ∧
    (0 < t.prompted_chars → t.prompted_chars < N →
      (tty_erase t N).prompted_chars = 0 ∧
      ∀ i, (tty_erase t N).history i =
        if tty_erase_begin t t.prompted_chars ≤ i ∧
            i < tty_erase_begin t t.prompted_chars + t.prompted_chars then EMPTY_CHAR
        else (tty_cursor_backward t t.prompted_chars 0).history i) := by
  constructor
  · intro h
    unfold tty_erase
    rw [if_pos h]
  · intro h1 h2
    have hne : ¬ t.prompted_chars = 0 := by omega
    have hclamp : (if N > t.prompted_chars then t.prompted_chars else N) = t.prompted_chars :=
      if_pos h2
    unfold tty_erase
    rw [if_neg hne, hclamp]
    constructor
    · rw [tty_erase_core_prompted, tty_cursor_backward_prompted]
      exact Nat.sub_self _
    · intro i
      rw [tty_erase_core_history]

/-- Witness for C6 at a console with two prompted characters and an erase
count of five. -/
theorem c6_erase_boundary_witness :
    (0 < erase_ex.prompted_chars ∧ erase_ex.prompted_chars < 5) ∧
    (tty_erase erase_ex 5).prompted_chars = 0 :=
  ⟨by decide, ((c6_erase_boundary erase_ex 5).2 (by decide) (by decide)).1⟩

/-- C8: tty_write returns immediately with no state change when the buffer
is absent, the count is zero, or the console is absent; on all other inputs
it is total and produces a console (never an error). -/
theorem c8_write_noop_guard :
    (∀ (ansi : AnsiHandler) (buffer : Option (Nat → Nat)) (count : Nat)
        (tty : Option tty_t),
      buffer = none ∨ count = 0 ∨ tty = none → tty_write ansi buffer count tty = tty) ∧
    (∀ (ansi : AnsiHandler) (b : Nat → Nat) (count : Nat) (t : tty_t),
      ∃ u, tty_write ansi (some b) count (some t) = some u) := by
  constructor
  · rintro ansi buffer count tty (rfl | rfl | rfl)
    · cases tty <;> rfl
    · cases buffer <;> cases tty <;> rfl
    · cases buffer <;> rfl
  · intro ansi b count t
    by_cases h : count = 0
    · subst h; exact ⟨t, rfl⟩
    · exact ⟨tty_write_loop ansi b count count 0 t, by simp [tty_write, h]⟩

/-- Witness for C8 with an absent buffer. -/
theorem c8_write_noop_guard_witness :
    ((none : Option (Nat → Nat)) = none ∨ (0 : Nat) = 0 ∨ (none : Option tty_t) = none) ∧
    tty_write ansi_skip none 0 none = none :=
  ⟨Or.inl rfl, c8_write_noop_guard.1 ansi_skip none 0 none (Or.inl rfl)⟩

/-- C5 counterexample: at a frozen console, writing one ordinary byte
through tty_write changes the VGA buffer (cell 0 no longer holds the
sentinel), refuting the claim that the hardware sink stays unchanged while
frozen. -/
theorem c5_freeze_counterexample :
    frozen_ex.freeze = true ∧
    (tty_write ansi_skip (some (fun _ => 65)) 1 (some frozen_ex)).map (fun u => u.vga 0) ≠
      some (frozen_ex.vga 0) := by
  decide

/-- C5 amended: while frozen, bytes processed by tty_write mutate the
console's history buffer and the display is redrawn after every byte — the
freeze flag does not gate tty_write's redraw (it gates only the erase and
keyboard-input paths). After any nonempty write the VGA buffer holds
exactly the rendered viewport of the final console state. -/
theorem c5_freeze_redraw (ansi : AnsiHandler) (b : Nat → Nat) (count : Nat) (t : tty_t)
    (hc : 0 < count) (hf : t.freeze = true) :
    ∃ u, tty_write ansi (some b) count (some t) = some u ∧
      u.vga = (update_tty u).vga := by
  obtain ⟨w, hw⟩ := tty_write_loop_renders ansi b count count 0 t hc hc
  refine ⟨update_tty w, ?_, (update_tty_idem_vga w).symm⟩
  have hcz : ¬ count = 0 := by omega
  simp [tty_write, hcz, hw]

/-- Witness for C5 amended: one byte written to the concrete frozen
console. -/
theorem c5_freeze_redraw_witness :
    ((0 : Nat) < 1 ∧ frozen_ex.freeze = true) ∧
    ∃ u, tty_write ansi_skip (some (fun _ => 65)) 1 (some frozen_ex) = some u ∧
      u.vga = (update_tty u).vga :=
  ⟨by decide, c5_freeze_redraw ansi_skip (fun _ => 65) 1 frozen_ex (by decide) (by decide)⟩
